import Mathlib

/-!
Verification of the AIS 60:1 tools formula engine.

The development shallowly embeds the math helpers (`toNum`, `turnRadiusNM`,
`ftPerNMFromDegrees`), the formula catalogue `CALCS` and the screen state
(initial store, clear action) of the routed screen `AISToolsScreen`
(src/unnamed/part_001); the divergent `vvi` compute of the legacy copy
src/components/601_file.jsx is embedded separately as `vvi_compute_601`.

Modelling conventions:
* JavaScript numbers are idealized as exact rationals; the non-finite values
  produced by division are modelled by the inductive `JSNum`
  (`fin q`, `inf`, `ninf`, `nan`).  Overflow of doubles is not modelled.
* `Math.tan` and `Math.PI` are transcendental, so every definition that uses
  them is parametrized by an arbitrary rational stand-in
  (`tanQ : ℚ → ℚ`, `piQ : ℚ`); theorems about those formulas hold for every
  choice of the parameters.
* The input value store (a JS object of raw strings) is a function
  `String → Option String`; a missing key (JS `undefined`) is `none`.
* `parseFloat` is modelled on lists of characters following the ECMAScript
  grammar for a longest valid decimal-literal (or `Infinity`) prefix after
  optional whitespace and sign.
-/

namespace AIS

/-- A JavaScript number result: a finite (idealized rational) value, one of
the two infinities, or `NaN`. -/
inductive JSNum where
  | fin : ℚ → JSNum
  | inf : JSNum
  | ninf : JSNum
  | nan : JSNum
deriving DecidableEq, Repr

/-- `Number.isFinite` on a `JSNum`. -/
def jsFinite : JSNum → Bool
  | JSNum.fin _ => true
  | _ => false

/-- JS division of two finite numbers: `a / 0` is `NaN` when `a = 0` and a
signed infinity otherwise; a nonzero divisor gives the exact quotient. -/
def jsDiv (a b : ℚ) : JSNum :=
  if b = 0 then
    if a = 0 then JSNum.nan else if 0 < a then JSNum.inf else JSNum.ninf
  else JSNum.fin (a / b)

/-- JS division of a possibly non-finite number by a finite one. -/
def jsDivNum : JSNum → ℚ → JSNum
  | JSNum.fin a, b => jsDiv a b
  | JSNum.inf, b => if b < 0 then JSNum.ninf else JSNum.inf
  | JSNum.ninf, b => if b < 0 then JSNum.inf else JSNum.ninf
  | JSNum.nan, _ => JSNum.nan

/-- JS addition of a finite number and a possibly non-finite one. -/
def jqAdd (a : ℚ) : JSNum → JSNum
  | JSNum.fin b => JSNum.fin (a + b)
  | JSNum.inf => JSNum.inf
  | JSNum.ninf => JSNum.ninf
  | JSNum.nan => JSNum.nan

/-- JS subtraction of a possibly non-finite number from a finite one. -/
def jqSub (a : ℚ) : JSNum → JSNum
  | JSNum.fin b => JSNum.fin (a - b)
  | JSNum.inf => JSNum.ninf
  | JSNum.ninf => JSNum.inf
  | JSNum.nan => JSNum.nan

/-- Drop the leading JS string whitespace (space, tab, newline, CR). -/
def dropWS : List Char → List Char
  | [] => []
  | c :: cs => if c = ' ' ∨ c = '\t' ∨ c = '\n' ∨ c = '\r' then dropWS cs else c :: cs

/-- Consume a maximal run of decimal digits, extending the accumulated value
`acc`; returns the value, the number of digits consumed, and the rest. -/
def takeDigits (acc : ℕ) (n : ℕ) : List Char → ℕ × ℕ × List Char
  | [] => (acc, n, [])
  | c :: cs =>
    if c.isDigit then takeDigits (10 * acc + (c.toNat - 48)) (n + 1) cs
    else (acc, n, c :: cs)

/-- Parse the mantissa `Digits [. Digits]` (at least one digit overall);
returns its rational value and the remaining characters. -/
def parseMantissa (cs : List Char) : Option (ℚ × List Char) :=
  let (ip, ni, cs1) := takeDigits 0 0 cs
  match cs1 with
  | '.' :: cs2 =>
    let (fp, nf, cs3) := takeDigits 0 0 cs2
    if ni = 0 ∧ nf = 0 then none
    else some ((ip : ℚ) + (fp : ℚ) / (10 : ℚ) ^ nf, cs3)
  | _ => if ni = 0 then none else some ((ip : ℚ), cs1)

/-- Value of an exponent digit run; `0` when there is no digit (in which case
`parseFloat` keeps only the mantissa). -/
def expDigits (neg : Bool) (cs : List Char) : ℤ :=
  let (ev, ne, _) := takeDigits 0 0 cs
  if ne = 0 then 0 else if neg then -(ev : ℤ) else (ev : ℤ)

/-- Parse an optional exponent part `e|E [+|-] Digits` after the mantissa. -/
def parseExpPart (cs : List Char) : ℤ :=
  match cs with
  | c :: cs1 =>
    if c = 'e' ∨ c = 'E' then
      match cs1 with
      | '+' :: cs2 => expDigits false cs2
      | '-' :: cs2 => expDigits true cs2
      | _ => expDigits false cs1
    else 0
  | [] => 0

/-- Parse the part after the optional sign: the literal `Infinity` or a
decimal literal prefix; anything else is `NaN`. -/
def parseAfterSign (neg : Bool) (cs : List Char) : JSNum :=
  if cs.take 8 = "Infinity".toList then
    if neg then JSNum.ninf else JSNum.inf
  else
    match parseMantissa cs with
    | none => JSNum.nan
    | some (m, rest) =>
      let q := m * (10 : ℚ) ^ parseExpPart rest
      JSNum.fin (if neg then -q else q)

/-- `parseFloat` on a string: skip whitespace, read an optional sign, then the
longest valid numeric prefix; `NaN` when there is none. -/
def parseFloatJS (s : String) : JSNum :=
  match dropWS s.toList with
  | '+' :: cs => parseAfterSign false cs
  | '-' :: cs => parseAfterSign true cs
  | cs => parseAfterSign false cs

/-- `String(v).replace(/,/g, '')`: remove every comma, wherever it occurs. -/
def stripCommas (s : String) : String :=
  String.mk (s.toList.filter (fun c => c != ','))

/-- The numeric parser of the source (`toNum`): coerce `undefined` to the
empty string, strip commas, `parseFloat`, and fall back when the result is
not finite.  The source fallback is either omitted (the number `0`) or
`null`, so it is modelled as an `Option ℚ` (`some 0` or `none`); the result
is the parsed finite number or that fallback. -/
def toNum (v : Option String) (fallback : Option ℚ) : Option ℚ :=
  match parseFloatJS (stripCommas (v.getD "")) with
  | JSNum.fin q => some q
  | _ => fallback

/-- `toNum` at its default fallback `0`, as a plain rational. -/
def toNum0 (v : Option String) : ℚ :=
  match parseFloatJS (stripCommas (v.getD "")) with
  | JSNum.fin q => q
  | _ => 0

/-- The input value store: field key to the raw string typed by the user;
`none` is a missing key (JS `undefined`). -/
abbrev Store := String → Option String

/-- Output record of a compute function: output key to a number or `null`. -/
abbrev Outputs := List (String × Option JSNum)

/-- The source literal `1e-9`, the epsilon guard for divisors.  Decimal and
scientific literals are spelled as explicit fractions so that they reduce in
the kernel; the values are exact. -/
def eps : ℚ := 1 / 1000000000

/-- The source literal `6076.12` (feet per nautical mile). -/
def ftPerNMconst : ℚ := 607612 / 100

/-- The source literal `1.68781` (knots to feet per second). -/
def ktToFtPerSec : ℚ := 168781 / 100000

/-- The source literal `32.174` (gravity, ft/s²). -/
def gravityFtPerSec2 : ℚ := 32174 / 1000

/-- The source literal `0.0001` (surrogate bank angle in radians). -/
def phiSurrogate : ℚ := 1 / 10000

/-- `ftPerNMFromDegrees`: `6076.12 * Math.tan(deg * Math.PI / 180)`. -/
def ftPerNMFromDegrees (tanQ : ℚ → ℚ) (piQ : ℚ) (deg : ℚ) : ℚ :=
  ftPerNMconst * tanQ (deg * piQ / 180)

/-- `turnRadiusNM`: physics-based turn radius.  The source applies `toNum` to
its two arguments, which is the identity on the finite numbers every caller
passes, so the arguments are taken as rationals directly.  `phi || 0.0001`
substitutes the surrogate angle when the bank angle is zero. -/
def turnRadiusNM (tanQ : ℚ → ℚ) (piQ : ℚ) (tasKt bankDeg : ℚ) : JSNum :=
  let vfts := tasKt * ktToFtPerSec
  let g : ℚ := gravityFtPerSec2
  let phi := bankDeg * piQ / 180
  let r_ft := jsDiv (vfts * vfts) (g * tanQ (if phi = 0 then phiSurrogate else phi))
  jsDivNum r_ft ftPerNMconst

/-- An input field spec of a formula. -/
structure Field where
  key : String
  label : String
  optional : Bool
  default : Option String
deriving DecidableEq, Repr

/-- An output field spec of a formula. -/
structure OutputField where
  key : String
  label : String
deriving DecidableEq, Repr

/-- A formula definition of the catalogue: identifier, title, input field
specs, pure compute function, output field specs, display equation. -/
structure Formula where
  id : String
  title : String
  fields : List Field
  compute : Store → Outputs
  outputs : List OutputField
  equation : Option String

/-- Compute of formula 1: gradient = altitude change over the
epsilon-guarded distance. -/
def gradient_compute (v : Store) : Outputs :=
  [("gradientFtPerNM",
    some (jsDiv (toNum0 (v "altitudeChangeFt")) (max eps (toNum0 (v "distanceNM")))))]

/-- Compute of formula 2: pitch from gradient. -/
def pitch_compute (v : Store) : Outputs :=
  [("pitchDeg",
    some (JSNum.fin (toNum0 (v "gradientPercent") / 100 + toNum0 (v "xCorrectionDeg"))))]

/-- Compute of formula 3: IAS to TAS and NM/min. -/
def ias2tas_compute (v : Store) : Outputs :=
  let ktas := toNum0 (v "iasKt") + 5 * (toNum0 (v "pressureAltFt") / 1000)
  [("ktas", some (JSNum.fin ktas)), ("tasNMmin", some (JSNum.fin (ktas / 60)))]

/-- Compute of formula 4: average TAS. -/
def avgTas_compute (v : Store) : Outputs :=
  let avg := (toNum0 (v "tasLow") + toNum0 (v "tasHigh")) / 2
  [("avgTasKt", some (JSNum.fin avg)), ("avgTasNMmin", some (JSNum.fin (avg / 60)))]

/-- Compute of formula 5 (`vvi`) as in src/unnamed/part_001: the gradient is
parsed with the default fallback `0`, so it is always a finite number and the
`Number.isFinite(gradient)` guard (the `none` branch of the first match) can
never fire; the TAS inputs are parsed with fallback `null`. -/
def vvi_compute (v : Store) : Outputs :=
  let gradient := toNum (v "gradientFtPerNM") (some 0)
  let tasNMmin := toNum (v "tasNMmin") none
  let tasNMhr := toNum (v "tasNMhr") none
  match gradient with
  | none => [("vviFPM", none)]
  | some g =>
    match tasNMmin with
    | some m => [("vviFPM", some (JSNum.fin (g * m)))]
    | none =>
      match tasNMhr with
      | some hr => [("vviFPM", some (JSNum.fin (g * (hr / 60))))]
      | none => [("vviFPM", none)]

/-- The `vvi` compute of the legacy copy src/components/601_file.jsx, where
the gradient is parsed with fallback `null` and the guard `gradient == null`
is live. -/
def vvi_compute_601 (v : Store) : Outputs :=
  let gradient := toNum (v "gradientFtPerNM") none
  let tasMin := toNum (v "tasNMmin") none
  let tasHr := toNum (v "tasNMhr") none
  match gradient with
  | none => [("vviFPM", none)]
  | some g =>
    match tasMin with
    | some m => [("vviFPM", some (JSNum.fin (g * m)))]
    | none =>
      match tasHr with
      | some hr => [("vviFPM", some (JSNum.fin (g * (hr / 60))))]
      | none => [("vviFPM", none)]

/-- Compute of formula 6: turn radius. -/
def turnRadius_compute (tanQ : ℚ → ℚ) (piQ : ℚ) (v : Store) : Outputs :=
  [("rNM", some (turnRadiusNM tanQ piQ (toNum0 (v "tasKt")) (toNum0 (v "bankDeg"))))]

/-- Compute of formula 7: lead radial with epsilon-guarded arcing DME. -/
def leadRadial_compute (v : Store) : Outputs :=
  let lead := jsDiv (60 * toNum0 (v "rNM")) (max eps (toNum0 (v "arcingDME")))
  [("leadDegMinus", some (jqSub (toNum0 (v "interceptRadial")) lead)),
   ("leadDegPlus", some (jqAdd (toNum0 (v "interceptRadial")) lead))]

/-- Compute of formula 8: lead DME. -/
def leadDME_compute (v : Store) : Outputs :=
  [("inbound", some (JSNum.fin (toNum0 (v "arcingDME") - toNum0 (v "rNM")))),
   ("outbound", some (JSNum.fin (toNum0 (v "arcingDME") + toNum0 (v "rNM"))))]

/-- Compute of formula 9: arcing distance. -/
def arcDistance_compute (v : Store) : Outputs :=
  [("arcNM",
    some (JSNum.fin (abs (toNum0 (v "startRadial") - toNum0 (v "endRadial")) / 60
      * toNum0 (v "arcingDME"))))]

/-- Compute of formula 10: turning distance for N degrees. -/
def turningDistance_compute (piQ : ℚ) (v : Store) : Outputs :=
  [("turnDistNM",
    some (JSNum.fin (toNum0 (v "degrees") / 360 * 2 * piQ * toNum0 (v "rNM"))))]

/-- Compute of formula 11: distance lost to a 90 degree turn. -/
def loss90_compute (piQ : ℚ) (v : Store) : Outputs :=
  let r := toNum0 (v "rNM")
  let arc := 90 / 360 * 2 * piQ * r
  [("lossNM", some (JSNum.fin (2 * r - arc)))]

/-- Compute of formula 12: distance to climb or descend, epsilon-guarded. -/
def climbDescend_compute (v : Store) : Outputs :=
  [("nm",
    some (jsDiv (toNum0 (v "altitudeToClimbFt"))
      (max eps (toNum0 (v "climbGradientFtPerNM")))))]

/-- Compute of formula 13: VDP, with the slope in ft/NM epsilon-guarded. -/
def vdp_compute (tanQ : ℚ → ℚ) (piQ : ℚ) (v : Store) : Outputs :=
  let ftPerNM := ftPerNMFromDegrees tanQ piQ (toNum0 (v "slopeDeg"))
  [("vdpNM", some (jsDiv (toNum0 (v "hatFt")) (max eps ftPerNM))),
   ("ftPerNM", some (JSNum.fin ftPerNM))]

/-- Compute of formula 14: distances for 3, 2, 1 and custom minutes out; the
custom output is `null` when the parsed custom minutes value is falsy. -/
def timeOut_compute (v : Store) : Outputs :=
  let gs := toNum0 (v "groundSpeedKt")
  let nmPerMin := gs / 60
  let custom := toNum0 (v "customMinutes")
  [("dist3min", some (JSNum.fin (nmPerMin * 3))),
   ("dist2min", some (JSNum.fin (nmPerMin * 2))),
   ("dist1min", some (JSNum.fin (nmPerMin * 1))),
   ("distCustom", if custom ≠ 0 then some (JSNum.fin (nmPerMin * custom)) else none)]

/-- Formula record 1: gradient. -/
def gradientCalc : Formula :=
  { id := "gradient"
    title := "1) Gradient (ft/NM)"
    fields := [
      { key := "altitudeChangeFt", label := "Altitude Change (ft)", optional := false, default := none },
      { key := "distanceNM", label := "Distance Traveled (NM)", optional := false, default := none }]
    compute := gradient_compute
    outputs := [{ key := "gradientFtPerNM", label := "Gradient (ft/NM)" }]
    equation := some "Gradient (ft/NM) = Δ Altitude (ft) ÷ Distance (NM)" }

/-- Formula record 2: pitch from gradient. -/
def pitchCalc : Formula :=
  { id := "pitch"
    title := "2) Pitch from Gradient"
    fields := [
      { key := "gradientPercent", label := "Gradient (%)", optional := false, default := none },
      { key := "xCorrectionDeg", label := "Level Pitch Attitude x° (optional)", optional := false, default := none }]
    compute := pitch_compute
    outputs := [{ key := "pitchDeg", label := "Pitch to Fly (°)" }]
    equation := some "Pitch (°) = (Gradient (%) ÷ 100) + Level Pitch (°)" }

/-- Formula record 3: IAS to TAS. -/
def ias2tasCalc : Formula :=
  { id := "ias2tas"
    title := "3) IAS → TAS (and NM/min)"
    fields := [
      { key := "iasKt", label := "IAS (kt)", optional := false, default := none },
      { key := "pressureAltFt", label := "Altitude (ft, ~PA)", optional := false, default := none }]
    compute := ias2tas_compute
    outputs := [
      { key := "ktas", label := "TAS (kt)" },
      { key := "tasNMmin", label := "TAS (NM/min)" }]
    equation := some "TAS (kt) ≈ IAS + 5 × (Altitude ÷ 1000)\nTAS (NM/min) = TAS ÷ 60" }

/-- Formula record 4: average TAS. -/
def avgTasCalc : Formula :=
  { id := "avgTas"
    title := "4) Average TAS"
    fields := [
      { key := "tasLow", label := "TAS @ lower alt (kt)", optional := false, default := none },
      { key := "tasHigh", label := "TAS @ higher alt (kt)", optional := false, default := none }]
    compute := avgTas_compute
    outputs := [
      { key := "avgTasKt", label := "Average TAS (kt)" },
      { key := "avgTasNMmin", label := "Average TAS (NM/min)" }]
    equation := some "Average TAS = (TAS_low + TAS_high) ÷ 2\nAverage TAS (NM/min) = Average TAS ÷ 60" }

/-- Formula record 5: VVI from gradient and TAS. -/
def vviCalc : Formula :=
  { id := "vvi"
    title := "5) VVI from Gradient & TAS"
    fields := [
      { key := "gradientFtPerNM", label := "Gradient (ft/NM)", optional := false, default := none },
      { key := "tasNMmin", label := "TAS (NM/min, optional)", optional := true, default := none },
      { key := "tasNMhr", label := "TAS (NM/hr, optional)", optional := true, default := none }]
    compute := vvi_compute
    outputs := [{ key := "vviFPM", label := "VVI (ft/min)" }]
    equation := some "VVI (ft/min) = Gradient (ft/NM) × TAS (NM/min)\n(or TAS (NM/hr) ÷ 60)" }

/-- Formula record 6: turn radius. -/
def turnRadiusCalc (tanQ : ℚ → ℚ) (piQ : ℚ) : Formula :=
  { id := "turnRadius"
    title := "6) Turn Radius (bank-aware physics)"
    fields := [
      { key := "tasKt", label := "TAS (kt)", optional := false, default := none },
      { key := "bankDeg", label := "Bank Angle (°)", optional := false, default := some "30" }]
    compute := turnRadius_compute tanQ piQ
    outputs := [{ key := "rNM", label := "Turn Radius (NM)" }]
    equation := some "r (NM) = (V² ÷ (g × tan φ)) ÷ 6076.12" }

/-- Formula record 7: lead radial. -/
def leadRadialCalc : Formula :=
  { id := "leadRadial"
    title := "7) Lead Radial (deg)"
    fields := [
      { key := "rNM", label := "Turn Radius r (NM)", optional := false, default := none },
      { key := "arcingDME", label := "Arcing DME (NM)", optional := false, default := none },
      { key := "interceptRadial", label := "Intercept Radial (deg)", optional := false, default := none }]
    compute := leadRadial_compute
    outputs := [
      { key := "leadDegMinus", label := "Lead Radial (−) deg" },
      { key := "leadDegPlus", label := "Lead Radial (+) deg" }]
    equation := some "Lead (°) = (60 × r) ÷ Arcing DME" }

/-- Formula record 8: lead DME. -/
def leadDMECalc : Formula :=
  { id := "leadDME"
    title := "8) Lead DME (NM)"
    fields := [
      { key := "arcingDME", label := "Arcing DME (NM)", optional := false, default := none },
      { key := "rNM", label := "Turn Radius r (NM)", optional := false, default := none }]
    compute := leadDME_compute
    outputs := [
      { key := "inbound", label := "Lead DME inbound (NM)" },
      { key := "outbound", label := "Lead DME outbound (NM)" }]
    equation := some "Lead DME = Arcing DME ± r" }

/-- Formula record 9: arcing distance. -/
def arcDistanceCalc : Formula :=
  { id := "arcDistance"
    title := "9) Arcing Distance (NM)"
    fields := [
      { key := "startRadial", label := "Starting Radial (deg)", optional := false, default := none },
      { key := "endRadial", label := "Ending Radial (deg)", optional := false, default := none },
      { key := "arcingDME", label := "Arcing DME (NM)", optional := false, default := none }]
    compute := arcDistance_compute
    outputs := [{ key := "arcNM", label := "Arcing Distance (NM)" }]
    equation := some "Arc Distance (NM) = (|Start − End| ÷ 60) × Arcing DME" }

/-- Formula record 10: turning distance. -/
def turningDistanceCalc (piQ : ℚ) : Formula :=
  { id := "turningDistance"
    title := "10) Turning Distance for N°"
    fields := [
      { key := "degrees", label := "Turn Amount (deg)", optional := false, default := none },
      { key := "rNM", label := "Turn Radius r (NM)", optional := false, default := none }]
    compute := turningDistance_compute piQ
    outputs := [{ key := "turnDistNM", label := "Turning Distance (NM)" }]
    equation := some "Turn Distance (NM) = (Degrees ÷ 360) × 2πr" }

/-- Formula record 11: distance lost to a 90 degree turn. -/
def loss90Calc (piQ : ℚ) : Formula :=
  { id := "loss90"
    title := "11) Distance Lost to a 90° Turn"
    fields := [
      { key := "rNM", label := "Turn Radius r (NM)", optional := false, default := none }]
    compute := loss90_compute piQ
    outputs := [{ key := "lossNM", label := "Distance Lost (NM)" }]
    equation := some "Loss (NM) = (2 × r) − (πr ÷ 2)" }

/-- Formula record 12: distance to climb or descend. -/
def climbDescendCalc : Formula :=
  { id := "climbDescend"
    title := "12) Distance to Climb/Descend (NM)"
    fields := [
      { key := "altitudeToClimbFt", label := "Δ Altitude (ft)", optional := false, default := none },
      { key := "climbGradientFtPerNM", label := "Climb/Descent Gradient (ft/NM)", optional := false, default := none }]
    compute := climbDescend_compute
    outputs := [{ key := "nm", label := "Distance (NM)" }]
    equation := some "Distance (NM) = Δ Altitude (ft) ÷ Gradient (ft/NM)" }

/-- Formula record 13: VDP. -/
def vdpCalc (tanQ : ℚ → ℚ) (piQ : ℚ) : Formula :=
  { id := "vdp"
    title := "13) VDP (NM from Threshold)"
    fields := [
      { key := "hatFt", label := "HAT (ft)", optional := false, default := none },
      { key := "slopeDeg", label := "Glideslope/VDA (deg)", optional := false, default := none }]
    compute := vdp_compute tanQ piQ
    outputs := [
      { key := "vdpNM", label := "VDP (NM)" },
      { key := "ftPerNM", label := "Slope (ft/NM)" }]
    equation := some "VDP (NM) = HAT (ft) ÷ Slope (ft/NM)\nSlope (ft/NM) = 6076.12 × tan(Slope °)" }

/-- Formula record 14: distances for minutes out. -/
def timeOutCalc : Formula :=
  { id := "timeOut"
    title := "14) Distance for 3-2-1 (and Custom) Minutes Out"
    fields := [
      { key := "groundSpeedKt", label := "Groundspeed (kt)", optional := false, default := none },
      { key := "customMinutes", label := "Custom Minutes Out (optional)", optional := false, default := none }]
    compute := timeOut_compute
    outputs := [
      { key := "dist3min", label := "3 min out (NM)" },
      { key := "dist2min", label := "2 min out (NM)" },
      { key := "dist1min", label := "1 min out (NM)" },
      { key := "distCustom", label := "Custom min out (NM)" }]
    equation := some "Distance (NM) = (Groundspeed ÷ 60) × Time (min)" }

/-- The formula catalogue of src/unnamed/part_001, parametrized by the
rational stand-ins for `Math.tan` and `Math.PI`. -/
def CALCS (tanQ : ℚ → ℚ) (piQ : ℚ) : List Formula :=
  [gradientCalc, pitchCalc, ias2tasCalc, avgTasCalc, vviCalc,
   turnRadiusCalc tanQ piQ, leadRadialCalc, leadDMECalc, arcDistanceCalc,
   turningDistanceCalc piQ, loss90Calc piQ, climbDescendCalc,
   vdpCalc tanQ piQ, timeOutCalc]

/-- JS object assignment `v[k] = val` on the store. -/
def storeSet (s : Store) (k val : String) : Store :=
  fun k2 => if k2 = k then some val else s k2

/-- The empty JS object: every key is `undefined`. -/
def emptyStore : Store := fun _ => none

/-- The initial store of `AISToolsScreen`: for every calc and every field,
assign `f.default ?? ''`. -/
def initValues (tanQ : ℚ → ℚ) (piQ : ℚ) : Store :=
  (CALCS tanQ piQ).foldl
    (fun st c => c.fields.foldl (fun st2 f => storeSet st2 f.key (f.default.getD "")) st)
    emptyStore

/-- The store after the clear action `setValues({})`: the empty object. -/
def clearedStore : Store := emptyStore

/-! Helper lemmas shared by the claim theorems. -/

/-- A division with a nonzero divisor yields the finite exact quotient. -/
theorem jsDiv_of_ne_zero (a b : ℚ) (h : b ≠ 0) : jsDiv a b = JSNum.fin (a / b) := by
  simp [jsDiv, h]

/-- The epsilon-guarded divisor `max eps x` is strictly positive. -/
theorem eps_lt_max (x : ℚ) : (0 : ℚ) < max eps x :=
  lt_max_of_lt_left (by norm_num [eps])

/-- When the comma-stripped parse is not finite, `toNum` returns the
fallback. -/
theorem toNum_eq_fallback (v : Option String) (fb : Option ℚ)
    (h : jsFinite (parseFloatJS (stripCommas (v.getD ""))) = false) : toNum v fb = fb := by
  unfold toNum
  cases hp : parseFloatJS (stripCommas (v.getD "")) with
  | fin q => rw [hp] at h; simp [jsFinite] at h
  | inf => rfl
  | ninf => rfl
  | nan => rfl

/-- When the comma-stripped parse is the finite number `q`, `toNum` returns
`q` and ignores the fallback. -/
theorem toNum_eq_parse (v : Option String) (fb : Option ℚ) (q : ℚ)
    (h : parseFloatJS (stripCommas (v.getD "")) = JSNum.fin q) : toNum v fb = some q := by
  simp [toNum, h]

/-! Claim theorems. -/

/-- C1 (code bug evidence): evaluation of the `vvi` computes.  On the routed
screen (src/unnamed/part_001) a missing (hence non-finite) gradient input
parses to `0`, so with `tasNMmin = "2"` the output is `0`, not `null`: the
non-finite-gradient guard is unreachable.  The legacy compute of
src/components/601_file.jsx returns `null` there, as the claim states.  The
three examples of the claim do hold on both versions. -/
theorem vvi_gradient_guard_unreachable :
    vvi_compute (fun k => if k = "tasNMmin" then some "2" else none)
      = [("vviFPM", some (JSNum.fin 0))]
    ∧ vvi_compute_601 (fun k => if k = "tasNMmin" then some "2" else none)
      = [("vviFPM", none)]
    ∧ vvi_compute (fun k => if k = "gradientFtPerNM" then some "300"
        else if k = "tasNMmin" then some "2" else none)
      = [("vviFPM", some (JSNum.fin 600))]
    ∧ vvi_compute (fun k => if k = "gradientFtPerNM" then some "300"
        else if k = "tasNMhr" then some "120" else none)
      = [("vviFPM", some (JSNum.fin 600))]
    ∧ vvi_compute (fun k => if k = "gradientFtPerNM" then some "300" else none)
      = [("vviFPM", none)] := by
  refine ⟨?_, ?_, ?_, ?_, ?_⟩ <;> with_unfolding_all rfl

/-- C2 (counterexample): the clear action stores the empty object, so the
`bankDeg` field does not revert to its declared default string `"30"`: at
startup it holds `some "30"`, after clear it is absent (`none`), so the
post-clear store differs from the startup store. -/
theorem clear_bankDeg_counterexample :
    initValues (fun q => q) 0 "bankDeg" = some "30"
    ∧ clearedStore "bankDeg" = none
    ∧ clearedStore "bankDeg" ≠ initValues (fun q => q) 0 "bankDeg" :=
  ⟨rfl, rfl, by decide⟩

/-- C2 (amended): after the clear action every key of the store is absent
(`none`, read back as the empty string by the screen); at startup every
declared field holds its `default ?? ''` string, e.g. `bankDeg` holds
`"30"` — so the cleared store is empty rather than equal to the startup
store. -/
theorem clear_resets_store_to_empty (tanQ : ℚ → ℚ) (piQ : ℚ) :
    (∀ k, clearedStore k = none)
    ∧ ((CALCS tanQ piQ).all fun c => c.fields.all fun f =>
        initValues tanQ piQ f.key == some (f.default.getD "")) = true
    ∧ initValues tanQ piQ "bankDeg" = some "30" :=
  ⟨fun _ => rfl, rfl, rfl⟩

/-- C3: `toNum` is total (a Lean function) and returns the supplied fallback
whenever the comma-stripped parse result is not finite; in particular for the
`undefined` input, the empty string, letters, `NaN` and the two infinities,
for every fallback value. -/
theorem toNum_fallback_on_nonfinite :
    (∀ (v : Option String) (fb : Option ℚ),
      jsFinite (parseFloatJS (stripCommas (v.getD ""))) = false → toNum v fb = fb)
    ∧ ∀ fb : Option ℚ,
        toNum none fb = fb ∧ toNum (some "") fb = fb ∧ toNum (some "abc") fb = fb
        ∧ toNum (some "NaN") fb = fb ∧ toNum (some "Infinity") fb = fb
        ∧ toNum (some "-Infinity") fb = fb :=
  ⟨fun v fb h => toNum_eq_fallback v fb h,
   fun _ => ⟨rfl, rfl, rfl, rfl, rfl, rfl⟩⟩

/-- C3 (witness): the string `"xy"` parses to `NaN`, and `toNum` returns the
fallback `7` there. -/
theorem toNum_fallback_on_nonfinite_witness :
    jsFinite (parseFloatJS (stripCommas ((some "xy").getD ""))) = false
    ∧ toNum (some "xy") (some 7) = some 7 :=
  ⟨by decide, toNum_fallback_on_nonfinite.1 (some "xy") (some 7) (by decide)⟩

/-- C4: the four epsilon-guarded formulas (`gradient`, `leadRadial`,
`climbDescend`, `vdp`) produce finite outputs on every store: their divisors
are `max eps divisor` with `eps = 1e-9 > 0`, so the JS division can never
yield an infinity or `NaN`. -/
theorem epsilon_guarded_formulas_finite (tanQ : ℚ → ℚ) (piQ : ℚ) (s : Store) :
    (∃ q, gradient_compute s = [("gradientFtPerNM", some (JSNum.fin q))])
    ∧ (∃ q1 q2, leadRadial_compute s
        = [("leadDegMinus", some (JSNum.fin q1)), ("leadDegPlus", some (JSNum.fin q2))])
    ∧ (∃ q, climbDescend_compute s = [("nm", some (JSNum.fin q))])
    ∧ (∃ q1 q2, vdp_compute tanQ piQ s
        = [("vdpNM", some (JSNum.fin q1)), ("ftPerNM", some (JSNum.fin q2))]) := by
  refine ⟨⟨toNum0 (s "altitudeChangeFt") / max eps (toNum0 (s "distanceNM")), ?_⟩,
    ⟨toNum0 (s "interceptRadial") - 60 * toNum0 (s "rNM") / max eps (toNum0 (s "arcingDME")),
     toNum0 (s "interceptRadial") + 60 * toNum0 (s "rNM") / max eps (toNum0 (s "arcingDME")), ?_⟩,
    ⟨toNum0 (s "altitudeToClimbFt") / max eps (toNum0 (s "climbGradientFtPerNM")), ?_⟩,
    ⟨toNum0 (s "hatFt") / max eps (ftPerNMFromDegrees tanQ piQ (toNum0 (s "slopeDeg"))),
     ftPerNMFromDegrees tanQ piQ (toNum0 (s "slopeDeg")), ?_⟩⟩ <;>
  simp [gradient_compute, leadRadial_compute, climbDescend_compute, vdp_compute,
    jsDiv_of_ne_zero _ _ (ne_of_gt (eps_lt_max _)), jqAdd, jqSub]

/-- C5: the formula catalogue is the ordered sequence of exactly fourteen
formula definitions, in source order; each carries its own standalone compute
function, so each is independently invocable. -/
theorem CALCS_is_ordered_fourteen (tanQ : ℚ → ℚ) (piQ : ℚ) :
    (CALCS tanQ piQ).length = 14
    ∧ (CALCS tanQ piQ).map Formula.id
      = ["gradient", "pitch", "ias2tas", "avgTas", "vvi", "turnRadius", "leadRadial",
         "leadDME", "arcDistance", "turningDistance", "loss90", "climbDescend", "vdp",
         "timeOut"] :=
  ⟨rfl, rfl⟩

/-- C6: on every store the gradient formula returns the exact rational
quotient `toNum(altitude) / max(1e-9, toNum(distance))`, and on the inputs
`altitude = "1000"`, `distance = "2,000"` the comma-grouped distance parses
to `2000` and the result is `1/2`. -/
theorem gradient_formula_spec :
    (∀ s : Store, gradient_compute s
      = [("gradientFtPerNM", some (JSNum.fin
          (toNum0 (s "altitudeChangeFt") / max eps (toNum0 (s "distanceNM")))))])
    ∧ gradient_compute
        (fun k => if k = "altitudeChangeFt" then some "1000"
          else if k = "distanceNM" then some "2,000" else none)
      = [("gradientFtPerNM", some (JSNum.fin (1/2)))] := by
  constructor
  · intro s
    simp [gradient_compute, jsDiv_of_ne_zero _ _ (ne_of_gt (eps_lt_max _))]
  · with_unfolding_all rfl

/-- C7: for every stand-in for `Math.tan` and `Math.PI` and every parsed TAS
and bank-angle input, `turnRadiusNM` is exactly
`(TAS·1.68781)² / (32.174·tan(φ)) / 6076.12` with `φ = bank·π/180`,
substituting the `0.0001` rad surrogate for `φ` when it is zero — in
particular for bank angle `0` — provided the tangent of the angle actually
used is nonzero (otherwise the JS division yields an infinity, which the
claim's formula does not denote); in particular at TAS 150 kt and bank 30°
(nonzero π, nonzero tangent) the radius is
`(150·1.68781)² / (32.174·tan(30·π/180)) / 6076.12` exactly.  The first
conjunct links the formula's compute on any store to `turnRadiusNM` on the
parsed inputs. -/
theorem turnRadiusNM_spec (tanQ : ℚ → ℚ) (piQ : ℚ) :
    (∀ s : Store, turnRadius_compute tanQ piQ s
      = [("rNM", some (turnRadiusNM tanQ piQ (toNum0 (s "tasKt")) (toNum0 (s "bankDeg"))))])
    ∧ (∀ tas bank : ℚ,
        tanQ (if bank * piQ / 180 = 0 then phiSurrogate else bank * piQ / 180) ≠ 0 →
        turnRadiusNM tanQ piQ tas bank
          = JSNum.fin ((tas * ktToFtPerSec) ^ 2
              / (gravityFtPerSec2
                  * tanQ (if bank * piQ / 180 = 0 then phiSurrogate else bank * piQ / 180))
              / ftPerNMconst))
    ∧ (∀ tas : ℚ, tanQ phiSurrogate ≠ 0 →
        turnRadiusNM tanQ piQ tas 0
          = JSNum.fin ((tas * ktToFtPerSec) ^ 2
              / (gravityFtPerSec2 * tanQ phiSurrogate) / ftPerNMconst))
    ∧ (piQ ≠ 0 → tanQ (30 * piQ / 180) ≠ 0 →
        turnRadiusNM tanQ piQ 150 30
          = JSNum.fin ((150 * ktToFtPerSec) ^ 2
              / (gravityFtPerSec2 * tanQ (30 * piQ / 180)) / ftPerNMconst)) := by
  have gen : ∀ tas bank : ℚ,
      tanQ (if bank * piQ / 180 = 0 then phiSurrogate else bank * piQ / 180) ≠ 0 →
      turnRadiusNM tanQ piQ tas bank
        = JSNum.fin ((tas * ktToFtPerSec) ^ 2
            / (gravityFtPerSec2
                * tanQ (if bank * piQ / 180 = 0 then phiSurrogate else bank * piQ / 180))
            / ftPerNMconst) := by
    intro tas bank ht
    simp only [turnRadiusNM]
    rw [jsDiv_of_ne_zero _ _ (mul_ne_zero (by norm_num [gravityFtPerSec2]) ht)]
    simp only [jsDivNum]
    rw [jsDiv_of_ne_zero _ _ (by norm_num [ftPerNMconst])]
    congr 1
    ring
  refine ⟨fun s => rfl, gen, ?_, ?_⟩
  · intro tas ht
    have h0 : (0 : ℚ) * piQ / 180 = 0 := by norm_num
    have hgen := gen tas 0 (by rw [if_pos h0]; exact ht)
    rwa [if_pos h0] at hgen
  · intro hp ht
    have hphi : (30 : ℚ) * piQ / 180 ≠ 0 :=
      div_ne_zero (mul_ne_zero (by norm_num) hp) (by norm_num)
    have hgen := gen 150 30 (by rw [if_neg hphi]; exact ht)
    rwa [if_neg hphi] at hgen

/-- C7 (witness): the surrogate branch at the concrete stand-ins
`tanQ = id`, `piQ = 3`, TAS 200 kt and bank angle 0: the hypothesis
`tan(0.0001) ≠ 0` holds and the radius is the claimed expression with the
surrogate angle. -/
theorem turnRadiusNM_spec_witness :
    ((fun q : ℚ => q) phiSurrogate ≠ 0)
    ∧ turnRadiusNM (fun q : ℚ => q) 3 200 0
      = JSNum.fin ((200 * ktToFtPerSec) ^ 2
          / (gravityFtPerSec2 * phiSurrogate) / ftPerNMconst) :=
  ⟨by norm_num [phiSurrogate],
   (turnRadiusNM_spec (fun q : ℚ => q) 3).2.2.1 200 (by norm_num [phiSurrogate])⟩

/-- C8: every catalogue formula is deterministic and reads only its declared
input keys: two stores that agree on the formula declared field keys produce
identical outputs (the compute functions are pure Lean functions, so there
are no side effects on the store or on other formulas). -/
theorem compute_reads_only_declared_keys (tanQ : ℚ → ℚ) (piQ : ℚ) (c : Formula)
    (hc : c ∈ CALCS tanQ piQ) (s1 s2 : Store)
    (h : ∀ f ∈ c.fields, s1 f.key = s2 f.key) :
    c.compute s1 = c.compute s2 := by
  simp only [CALCS, List.mem_cons, List.not_mem_nil, or_false] at hc
  rcases hc with rfl | rfl | rfl | rfl | rfl | rfl | rfl | rfl | rfl | rfl | rfl | rfl | rfl | rfl
  · have h1 := h ⟨"altitudeChangeFt", "Altitude Change (ft)", false, none⟩ (by decide)
    have h2 := h ⟨"distanceNM", "Distance Traveled (NM)", false, none⟩ (by decide)
    show gradient_compute s1 = gradient_compute s2
    simp only [gradient_compute]
    rw [show s1 "altitudeChangeFt" = s2 "altitudeChangeFt" from h1,
        show s1 "distanceNM" = s2 "distanceNM" from h2]
  · have h1 := h ⟨"gradientPercent", "Gradient (%)", false, none⟩ (by decide)
    have h2 := h ⟨"xCorrectionDeg", "Level Pitch Attitude x° (optional)", false, none⟩ (by decide)
    show pitch_compute s1 = pitch_compute s2
    simp only [pitch_compute]
    rw [show s1 "gradientPercent" = s2 "gradientPercent" from h1,
        show s1 "xCorrectionDeg" = s2 "xCorrectionDeg" from h2]
  · have h1 := h ⟨"iasKt", "IAS (kt)", false, none⟩ (by decide)
    have h2 := h ⟨"pressureAltFt", "Altitude (ft, ~PA)", false, none⟩ (by decide)
    show ias2tas_compute s1 = ias2tas_compute s2
    simp only [ias2tas_compute]
    rw [show s1 "iasKt" = s2 "iasKt" from h1,
        show s1 "pressureAltFt" = s2 "pressureAltFt" from h2]
  · have h1 := h ⟨"tasLow", "TAS @ lower alt (kt)", false, none⟩ (by decide)
    have h2 := h ⟨"tasHigh", "TAS @ higher alt (kt)", false, none⟩ (by decide)
    show avgTas_compute s1 = avgTas_compute s2
    simp only [avgTas_compute]
    rw [show s1 "tasLow" = s2 "tasLow" from h1,
        show s1 "tasHigh" = s2 "tasHigh" from h2]
  · have h1 := h ⟨"gradientFtPerNM", "Gradient (ft/NM)", false, none⟩ (by decide)
    have h2 := h ⟨"tasNMmin", "TAS (NM/min, optional)", true, none⟩ (by decide)
    have h3 := h ⟨"tasNMhr", "TAS (NM/hr, optional)", true, none⟩ (by decide)
    show vvi_compute s1 = vvi_compute s2
    simp only [vvi_compute]
    rw [show s1 "gradientFtPerNM" = s2 "gradientFtPerNM" from h1,
        show s1 "tasNMmin" = s2 "tasNMmin" from h2,
        show s1 "tasNMhr" = s2 "tasNMhr" from h3]
  · have h1 := h ⟨"tasKt", "TAS (kt)", false, none⟩ (by simp [turnRadiusCalc])
    have h2 := h ⟨"bankDeg", "Bank Angle (°)", false, some "30"⟩ (by simp [turnRadiusCalc])
    show turnRadius_compute tanQ piQ s1 = turnRadius_compute tanQ piQ s2
    simp only [turnRadius_compute]
    rw [show s1 "tasKt" = s2 "tasKt" from h1,
        show s1 "bankDeg" = s2 "bankDeg" from h2]
  · have h1 := h ⟨"rNM", "Turn Radius r (NM)", false, none⟩ (by decide)
    have h2 := h ⟨"arcingDME", "Arcing DME (NM)", false, none⟩ (by decide)
    have h3 := h ⟨"interceptRadial", "Intercept Radial (deg)", false, none⟩ (by decide)
    show leadRadial_compute s1 = leadRadial_compute s2
    simp only [leadRadial_compute]
    rw [show s1 "rNM" = s2 "rNM" from h1,
        show s1 "arcingDME" = s2 "arcingDME" from h2,
        show s1 "interceptRadial" = s2 "interceptRadial" from h3]
  · have h1 := h ⟨"arcingDME", "Arcing DME (NM)", false, none⟩ (by decide)
    have h2 := h ⟨"rNM", "Turn Radius r (NM)", false, none⟩ (by decide)
    show leadDME_compute s1 = leadDME_compute s2
    simp only [leadDME_compute]
    rw [show s1 "arcingDME" = s2 "arcingDME" from h1,
        show s1 "rNM" = s2 "rNM" from h2]
  · have h1 := h ⟨"startRadial", "Starting Radial (deg)", false, none⟩ (by decide)
    have h2 := h ⟨"endRadial", "Ending Radial (deg)", false, none⟩ (by decide)
    have h3 := h ⟨"arcingDME", "Arcing DME (NM)", false, none⟩ (by decide)
    show arcDistance_compute s1 = arcDistance_compute s2
    simp only [arcDistance_compute]
    rw [show s1 "startRadial" = s2 "startRadial" from h1,
        show s1 "endRadial" = s2 "endRadial" from h2,
        show s1 "arcingDME" = s2 "arcingDME" from h3]
  · have h1 := h ⟨"degrees", "Turn Amount (deg)", false, none⟩ (by simp [turningDistanceCalc])
    have h2 := h ⟨"rNM", "Turn Radius r (NM)", false, none⟩ (by simp [turningDistanceCalc])
    show turningDistance_compute piQ s1 = turningDistance_compute piQ s2
    simp only [turningDistance_compute]
    rw [show s1 "degrees" = s2 "degrees" from h1,
        show s1 "rNM" = s2 "rNM" from h2]
  · have h1 := h ⟨"rNM", "Turn Radius r (NM)", false, none⟩ (by simp [loss90Calc])
    show loss90_compute piQ s1 = loss90_compute piQ s2
    simp only [loss90_compute]
    rw [show s1 "rNM" = s2 "rNM" from h1]
  · have h1 := h ⟨"altitudeToClimbFt", "Δ Altitude (ft)", false, none⟩ (by decide)
    have h2 := h ⟨"climbGradientFtPerNM", "Climb/Descent Gradient (ft/NM)", false, none⟩ (by decide)
    show climbDescend_compute s1 = climbDescend_compute s2
    simp only [climbDescend_compute]
    rw [show s1 "altitudeToClimbFt" = s2 "altitudeToClimbFt" from h1,
        show s1 "climbGradientFtPerNM" = s2 "climbGradientFtPerNM" from h2]
  · have h1 := h ⟨"hatFt", "HAT (ft)", false, none⟩ (by simp [vdpCalc])
    have h2 := h ⟨"slopeDeg", "Glideslope/VDA (deg)", false, none⟩ (by simp [vdpCalc])
    show vdp_compute tanQ piQ s1 = vdp_compute tanQ piQ s2
    simp only [vdp_compute]
    rw [show s1 "hatFt" = s2 "hatFt" from h1,
        show s1 "slopeDeg" = s2 "slopeDeg" from h2]
  · have h1 := h ⟨"groundSpeedKt", "Groundspeed (kt)", false, none⟩ (by decide)
    have h2 := h ⟨"customMinutes", "Custom Minutes Out (optional)", false, none⟩ (by decide)
    show timeOut_compute s1 = timeOut_compute s2
    simp only [timeOut_compute]
    rw [show s1 "groundSpeedKt" = s2 "groundSpeedKt" from h1,
        show s1 "customMinutes" = s2 "customMinutes" from h2]

/-- C8 (witness): the gradient formula on two stores that agree on its two
declared keys but differ on every other key. -/
theorem compute_reads_only_declared_keys_witness :
    gradientCalc.compute
        (fun k => if k = "altitudeChangeFt" then some "10"
          else if k = "distanceNM" then some "4" else none)
      = gradientCalc.compute
        (fun k => if k = "altitudeChangeFt" then some "10"
          else if k = "distanceNM" then some "4" else some "999") :=
  compute_reads_only_declared_keys (fun q => q) 0 gradientCalc
    (by simp [CALCS]) _ _
    (by intro f hf
        simp only [gradientCalc, List.mem_cons, List.not_mem_nil, or_false] at hf
        rcases hf with rfl | rfl <;> rfl)

/-- C9: on every store, `timeOut` returns `(GS/60)·3`, `(GS/60)·2`,
`(GS/60)·1`, and the custom output is `(GS/60)·custom` when the parsed
custom-minutes value is truthy (nonzero) and `null` when it is falsy
(absent, non-numeric or parsing to `0`, all of which parse to `0`). -/
theorem timeOut_spec (s : Store) :
    timeOut_compute s =
      [("dist3min", some (JSNum.fin (toNum0 (s "groundSpeedKt") / 60 * 3))),
       ("dist2min", some (JSNum.fin (toNum0 (s "groundSpeedKt") / 60 * 2))),
       ("dist1min", some (JSNum.fin (toNum0 (s "groundSpeedKt") / 60 * 1))),
       ("distCustom",
         if toNum0 (s "customMinutes") ≠ 0 then
           some (JSNum.fin (toNum0 (s "groundSpeedKt") / 60 * toNum0 (s "customMinutes")))
         else none)] := rfl

/-- C10: `toNum` strips every comma anywhere in the string and parses the
longest leading numeric prefix: `"12abc"` gives `12`, `"1,2"` gives `12`
(not `1.2`), `"1,,2,3"` gives `123`; the stripped string contains no comma;
a finite parse result is returned as is, and the fallback is returned
exactly when the comma-stripped string has no finite parse. -/
theorem toNum_strips_commas_and_parses_leading :
    toNum (some "12abc") (some 7) = some 12
    ∧ toNum (some "1,2") (some 7) = some 12
    ∧ toNum (some "1,,2,3") none = some 123
    ∧ (∀ s : String, ((stripCommas s).toList.all fun c => c != ',') = true)
    ∧ (∀ (v : Option String) (fb : Option ℚ) (q : ℚ),
        parseFloatJS (stripCommas (v.getD "")) = JSNum.fin q → toNum v fb = some q)
    ∧ (∀ (v : Option String) (fb : Option ℚ),
        jsFinite (parseFloatJS (stripCommas (v.getD ""))) = false → toNum v fb = fb) := by
  refine ⟨by with_unfolding_all rfl, by with_unfolding_all rfl, by with_unfolding_all rfl,
    ?_, fun v fb q h => toNum_eq_parse v fb q h, fun v fb h => toNum_eq_fallback v fb h⟩
  intro s
  rw [List.all_eq_true]
  intro c hc
  exact (List.mem_filter.mp hc).2

/-- C10 (witness): the string `"3,4x"` parses (after comma stripping) to the
finite prefix value `34`, which `toNum` returns. -/
theorem toNum_strips_commas_and_parses_leading_witness :
    parseFloatJS (stripCommas ((some "3,4x").getD "")) = JSNum.fin 34
    ∧ toNum (some "3,4x") (some 7) = some 34 :=
  ⟨by with_unfolding_all rfl,
   toNum_strips_commas_and_parses_leading.2.2.2.2.1 (some "3,4x") (some 7) 34
     (by with_unfolding_all rfl)⟩

end AIS
